import Mathlib

/-!
Shallow embedding of the configuration loader and structured-log formatter
of the autonomous hypothesis-driven trading engine
(`trading_engineconfig.py`, `trading_enginelogger.py`).

Python floats only ever participate in order comparisons against literals
here, so they are embedded as exact rationals; machine strings are Lean
`String`s; the process environment is a partial map from variable names to
values; the filesystem is a set of existing directories together with an
oracle saying which paths the process may create.
-/

namespace TradingEngine

/-- The process environment: a partial map from variable names to values. -/
def Env : Type := String → Option String

/-- `os.getenv(key, default)`: the variable's value, or the default when it
is unset. -/
def getenv (env : Env) (key default : String) : String :=
  (env key).getD default

/-- Python `s.replace('\\n', '\n')` on the character list: each literal
backslash-n two-character sequence becomes a newline, scanning left to
right without overlap. -/
def replaceBsN : List Char → List Char
  | '\\' :: 'n' :: rest => '\n' :: replaceBsN rest
  | c :: rest => c :: replaceBsN rest
  | [] => []

/-- String form of `replaceBsN`. -/
def replaceBsNStr (s : String) : String :=
  ⟨replaceBsN s.data⟩

/-- `FirebaseConfig` (trading_engineconfig.py lines 12-19): the credential
block. -/
structure FirebaseConfig where
  project_id : String
  private_key_id : String
  private_key : String
  client_email : String
  token_uri : String := "https://oauth2.googleapis.com/token"
deriving DecidableEq, Repr

/-- Abstract runtime error raised by a Python statement. -/
def PyErr : Type := String

/-- The body of `FirebaseConfig.from_env`'s `try` block (lines 25-30),
embedded as a possibly-raising computation: every step (`os.getenv` with a
default, `str.replace`) is total, so the body always returns `ok`. -/
def fromEnvBody (env : Env) : Except PyErr FirebaseConfig :=
  .ok
    { project_id := getenv env "FIREBASE_PROJECT_ID" ""
      private_key_id := getenv env "FIREBASE_PRIVATE_KEY_ID" ""
      private_key := replaceBsNStr (getenv env "FIREBASE_PRIVATE_KEY" "")
      client_email := getenv env "FIREBASE_CLIENT_EMAIL" "" }

/-- The `except Exception` clause of `from_env` (lines 31-33): a failing
body is logged and converted to `None`; a successful body is passed
through.  Either way the method itself returns normally. -/
def catchToNone (r : Except PyErr FirebaseConfig) :
    Except PyErr (Option FirebaseConfig) :=
  match r with
  | .ok c => .ok (some c)
  | .error _ => .ok none

/-- `FirebaseConfig.from_env` (lines 21-33) including its `except` clause,
as a possibly-raising computation. -/
def FirebaseConfig.fromEnvCaught (env : Env) :
    Except PyErr (Option FirebaseConfig) :=
  catchToNone (fromEnvBody env)

/-- `FirebaseConfig.from_env`'s returned value. -/
def FirebaseConfig.fromEnv (env : Env) : Option FirebaseConfig :=
  match fromEnvBody env with
  | .ok c => some c
  | .error _ => none

/-- `ExchangeConfig` (lines 35-42). -/
structure ExchangeConfig where
  name : String := "binance"
  api_key : String := ""
  api_secret : String := ""
  testnet : Bool := true
  rate_limit : Nat := 10
deriving DecidableEq, Repr

/-- `ExchangeConfig.from_env` (lines 44-50): only the key and secret come
from the environment; the other fields keep their defaults. -/
def ExchangeConfig.fromEnv (env : Env) : ExchangeConfig :=
  { api_key := getenv env "EXCHANGE_API_KEY" ""
    api_secret := getenv env "EXCHANGE_API_SECRET" "" }

/-- `TradingConfig` (lines 52-60); floats embedded as exact rationals. -/
structure TradingConfig where
  initial_capital : ℚ := 10000
  max_position_size : ℚ := 1/10
  max_daily_loss : ℚ := 2/100
  min_confidence_threshold : ℚ := 65/100
  max_open_positions : Nat := 5
  slippage_tolerance : ℚ := 1/1000
deriving DecidableEq, Repr

/-- `HypothesisConfig` (lines 62-69). -/
structure HypothesisConfig where
  lookback_periods : List Nat := [60, 240, 1440]
  min_test_period : Nat := 100
  max_hypotheses_per_cycle : Nat := 50
  hypothesis_timeout : Nat := 300
  backtest_warmup : Nat := 1000
deriving DecidableEq, Repr

/-- `ModelConfig` (lines 71-78). -/
structure ModelConfig where
  feature_window : Nat := 50
  target_horizon : Nat := 5
  train_test_split : ℚ := 8/10
  min_training_samples : Nat := 1000
  model_retrain_interval : Nat := 100
deriving DecidableEq, Repr

/-- The `Config` object's fields (lines 80-101).  `base_dir` is the parent
of the module's own location, abstracted here as an arbitrary path string;
the three working directories hang off it. -/
structure Config where
  firebase : Option FirebaseConfig
  exchange : ExchangeConfig
  trading : TradingConfig
  hypothesis : HypothesisConfig
  model : ModelConfig
  log_level : String
  base_dir : String
deriving DecidableEq, Repr

/-- `self.data_dir = self.base_dir / 'data'`. -/
def Config.data_dir (c : Config) : String := c.base_dir ++ "/data"

/-- `self.models_dir = self.base_dir / 'models'`. -/
def Config.models_dir (c : Config) : String := c.base_dir ++ "/models"

/-- `self.logs_dir = self.base_dir / 'logs'`. -/
def Config.logs_dir (c : Config) : String := c.base_dir ++ "/logs"

/-- The field assignments of `Config.__init__` (lines 83-101), before
validation and directory creation.  The constructor hard-codes
`TradingConfig()` (all defaults); the trading record is a parameter here so
that validation can be stated for arbitrary trading limits, and
`Config.load` below instantiates it with the defaults exactly as the
source does. -/
def Config.build (env : Env) (base : String) (t : TradingConfig) : Config :=
  { firebase := FirebaseConfig.fromEnv env
    exchange := ExchangeConfig.fromEnv env
    trading := t
    hypothesis := {}
    model := {}
    log_level := getenv env "LOG_LEVEL" "INFO"
    base_dir := base }

/-- Message of the `ValueError` on line 109. -/
def firebaseRequiredMsg : String := "Firebase configuration is required"

/-- Message printed on line 111. -/
def paperTradingWarning : String :=
  "WARNING: Exchange API credentials not set - using paper trading mode"

/-- Message of the `ValueError` on line 113. -/
def capitalMsg : String := "Initial capital must be positive"

/-- `Config._validate` (lines 106-113): the strings printed so far paired
with the message of the raised `ValueError`, if any.  Python truthiness:
`not self.firebase` is true exactly when the attribute is `None` (a
dataclass instance is always truthy), and `not s` on a string is true
exactly when the string is empty. -/
def Config.validate (c : Config) : List String × Option String :=
  if c.firebase.isNone then ([], some firebaseRequiredMsg)
  else
    let warns :=
      if c.exchange.api_key = "" ∨ c.exchange.api_secret = "" then
        [paperTradingWarning]
      else []
    if c.trading.initial_capital ≤ 0 then (warns, some capitalMsg)
    else (warns, none)

/-- Filesystem state: the set of directories that exist, and an oracle
telling whether the process can create a given missing path (false models
a permission error or a missing parent). -/
structure FS where
  dirs : List String
  canCreate : String → Bool

/-- A filesystem error surfaced by `Path.mkdir`. -/
inductive FsError where
  | cannotCreate (path : String)
deriving DecidableEq, Repr

/-- `Path.mkdir(exist_ok=True)`: succeed without change when the directory
exists; otherwise create it when permitted, and raise the OS error
otherwise (nothing is caught). -/
def mkdirExistOk (fs : FS) (p : String) : Except FsError FS :=
  if p ∈ fs.dirs then .ok fs
  else if fs.canCreate p then .ok { fs with dirs := p :: fs.dirs }
  else .error (.cannotCreate p)

/-- `Config._create_directories` (lines 115-119): the three `mkdir` calls
in order.  The returned state is the filesystem after the calls that ran;
an uncaught error from any call is reported alongside it. -/
def Config.createDirectories (c : Config) (fs : FS) : FS × Option FsError :=
  match mkdirExistOk fs c.data_dir with
  | .error e => (fs, some e)
  | .ok fs1 =>
    match mkdirExistOk fs1 c.models_dir with
    | .error e => (fs1, some e)
    | .ok fs2 =>
      match mkdirExistOk fs2 c.logs_dir with
      | .error e => (fs2, some e)
      | .ok fs3 => (fs3, none)

/-- What `Config()` can raise. -/
inductive LoadErr where
  | validation (msg : String)
  | fs (e : FsError)
deriving DecidableEq, Repr

/-- `Config.__init__` with the trading record as a parameter: build the
fields, run `_validate`, then `_create_directories` (lines 103-104).  The
result carries the printed warnings, the filesystem after whatever ran,
and either the constructed object or the uncaught exception. -/
def Config.loadWith (env : Env) (base : String) (t : TradingConfig)
    (fs : FS) : List String × FS × Except LoadErr Config :=
  let c := Config.build env base t
  let v := c.validate
  match v.2 with
  | some e => (v.1, fs, .error (.validation e))
  | none =>
    let d := c.createDirectories fs
    match d.2 with
    | some e => (v.1, d.1, .error (.fs e))
    | none => (v.1, d.1, .ok c)

/-- `Config()` as the source writes it (line 131 constructs the global
instance): `__init__` with the hard-coded default `TradingConfig()`. -/
def Config.load (env : Env) (base : String) (fs : FS) :
    List String × FS × Except LoadErr Config :=
  Config.loadWith env base {} fs

/-- A Python value as it appears in the dictionary that `to_dict`
returns: strings, exact numbers, booleans, lists, nested dicts. -/
inductive Val where
  | s (v : String)
  | q (v : ℚ)
  | nat (v : Nat)
  | b (v : Bool)
  | arr (l : List Val)
  | obj (l : List (String × Val))

/-- Every string occurring anywhere in a value: string leaves and
dictionary keys, at any depth. -/
def Val.strings : Val → List String
  | .s v => [v]
  | .q _ => []
  | .nat _ => []
  | .b _ => []
  | .arr [] => []
  | .arr (v :: l) => v.strings ++ (Val.arr l).strings
  | .obj [] => []
  | .obj ((k, v) :: l) => k :: (v.strings ++ (Val.obj l).strings)

/-- The top-level keys of a dictionary value. -/
def Val.topKeys : Val → List String
  | .obj l => l.map Prod.fst
  | _ => []

/-- `self.trading.__dict__`: field names to values, in declaration
order. -/
def TradingConfig.toVal (t : TradingConfig) : Val :=
  .obj
    [("initial_capital", .q t.initial_capital),
     ("max_position_size", .q t.max_position_size),
     ("max_daily_loss", .q t.max_daily_loss),
     ("min_confidence_threshold", .q t.min_confidence_threshold),
     ("max_open_positions", .nat t.max_open_positions),
     ("slippage_tolerance", .q t.slippage_tolerance)]

/-- `self.hypothesis.__dict__`. -/
def HypothesisConfig.toVal (h : HypothesisConfig) : Val :=
  .obj
    [("lookback_periods", .arr (h.lookback_periods.map Val.nat)),
     ("min_test_period", .nat h.min_test_period),
     ("max_hypotheses_per_cycle", .nat h.max_hypotheses_per_cycle),
     ("hypothesis_timeout", .nat h.hypothesis_timeout),
     ("backtest_warmup", .nat h.backtest_warmup)]

/-- `self.model.__dict__`. -/
def ModelConfig.toVal (m : ModelConfig) : Val :=
  .obj
    [("feature_window", .nat m.feature_window),
     ("target_horizon", .nat m.target_horizon),
     ("train_test_split", .q m.train_test_split),
     ("min_training_samples", .nat m.min_training_samples),
     ("model_retrain_interval", .nat m.model_retrain_interval)]

/-- `Config.to_dict` (lines 121-128): the redacted view. -/
def Config.toDict (c : Config) : Val :=
  .obj
    [("exchange",
       .obj [("name", .s c.exchange.name), ("testnet", .b c.exchange.testnet)]),
     ("trading", c.trading.toVal),
     ("hypothesis", c.hypothesis.toVal),
     ("model", c.model.toVal)]

/-- The secret field names of the configuration: the exchange API
credentials and every Firebase credential field. -/
def secretFieldNames : List String :=
  ["api_key", "api_secret", "project_id", "private_key_id", "private_key",
   "client_email", "token_uri"]

/-- The secret values read from an environment: the exchange key and
secret and each Firebase credential field as the loader stores it. -/
def secretValues (env : Env) : List String :=
  [getenv env "EXCHANGE_API_KEY" "",
   getenv env "EXCHANGE_API_SECRET" "",
   getenv env "FIREBASE_PROJECT_ID" "",
   getenv env "FIREBASE_PRIVATE_KEY_ID" "",
   replaceBsNStr (getenv env "FIREBASE_PRIVATE_KEY" ""),
   getenv env "FIREBASE_CLIENT_EMAIL" ""]

/-- The names of the environment variables that carry secrets. -/
def secretVarNames : List String :=
  ["FIREBASE_PROJECT_ID", "FIREBASE_PRIVATE_KEY_ID", "FIREBASE_PRIVATE_KEY",
   "FIREBASE_CLIENT_EMAIL", "EXCHANGE_API_KEY", "EXCHANGE_API_SECRET"]

/-- The complete list of strings occurring in the redacted view: the four
top-level keys, the sub-dictionary keys, and the constant exchange name. -/
def redactedStrings : List String :=
  ["exchange", "name", "binance", "testnet", "trading", "initial_capital",
   "max_position_size", "max_daily_loss", "min_confidence_threshold",
   "max_open_positions", "slippage_tolerance", "hypothesis",
   "lookback_periods", "min_test_period", "max_hypotheses_per_cycle",
   "hypothesis_timeout", "backtest_warmup", "model", "feature_window",
   "target_horizon", "train_test_split", "min_training_samples",
   "model_retrain_interval"]

/-- An environment with every variable unset. -/
def emptyEnv : Env := fun _ => none

/-- A filesystem with no directories in which every path may be created. -/
def freshFS : FS := { dirs := [], canCreate := fun _ => true }

/-- A filesystem with no directories in which no path may be created
(e.g. the base directory is read-only). -/
def lockedFS : FS := { dirs := [], canCreate := fun _ => false }

/-- An environment holding one exchange API key. -/
def envA : Env := fun k => if k = "EXCHANGE_API_KEY" then some "key-one" else none

/-- Like `envA` but with a different exchange API key. -/
def envB : Env := fun k => if k = "EXCHANGE_API_KEY" then some "key-two" else none

/-- A filesystem on which `_create_directories` can only meet existing
directories or create missing ones — no other error can arise. -/
def FS.ready (fs : FS) (c : Config) : Prop :=
  (c.data_dir ∈ fs.dirs ∨ fs.canCreate c.data_dir = true) ∧
  (c.models_dir ∈ fs.dirs ∨ fs.canCreate c.models_dir = true) ∧
  (c.logs_dir ∈ fs.dirs ∨ fs.canCreate c.logs_dir = true)

/-! ### Structured log formatter (trading_enginelogger.py)

The formatter builds a flat mapping and serializes it to one JSON line.
Characters that JSON must escape in the strings at hand (the double quote
and the backslash) are escaped; a companion parser recovers the mapping
from the line.  A datetime is embedded field-wise; `isoformat` follows
Python (`YYYY-MM-DDTHH:MM:SS`, with `.ffffff` exactly when the microsecond
field is non-zero). -/

/-- The double-quote character. -/
def quoteChar : Char := Char.ofNat 34

/-- The backslash character. -/
def backslashChar : Char := Char.ofNat 92

/-- The opening-brace character. -/
def lbraceChar : Char := Char.ofNat 123

/-- The closing-brace character. -/
def rbraceChar : Char := Char.ofNat 125

/-- The colon character. -/
def colonChar : Char := Char.ofNat 58

/-- The comma character. -/
def commaChar : Char := Char.ofNat 44

/-- The dash character. -/
def dashChar : Char := Char.ofNat 45

/-- The dot character. -/
def dotChar : Char := Char.ofNat 46

/-- The date-time separator `T`. -/
def tSepChar : Char := Char.ofNat 84

/-- The UTC marker `Z`. -/
def zChar : Char := Char.ofNat 90

/-- A wall-clock instant as `datetime.utcnow()` delivers it. -/
structure Datetime where
  year : Nat
  month : Nat
  day : Nat
  hour : Nat
  minute : Nat
  second : Nat
  microsecond : Nat
deriving DecidableEq, Repr

/-- The ranges `datetime` guarantees for its fields (year 1..9999, month
1..12, day 1..31, hour 0..23, minute/second 0..59, microsecond
0..999999). -/
def Datetime.wf (t : Datetime) : Prop :=
  t.year ≤ 9999 ∧ 1 ≤ t.month ∧ t.month ≤ 12 ∧ 1 ≤ t.day ∧ t.day ≤ 31 ∧
  t.hour ≤ 23 ∧ t.minute ≤ 59 ∧ t.second ≤ 59 ∧ t.microsecond ≤ 999999

instance (t : Datetime) : Decidable t.wf := by
  unfold Datetime.wf
  infer_instance

/-- The decimal digit character for `k ≤ 9`. -/
def dChar (k : Nat) : Char := Char.ofNat (48 + k)

/-- Two-digit zero-padded decimal rendering (`%02d` for values `≤ 99`). -/
def pad2 (n : Nat) : List Char := [dChar (n / 10), dChar (n % 10)]

/-- Four-digit zero-padded decimal rendering (`%04d` for values `≤ 9999`). -/
def pad4 (n : Nat) : List Char :=
  [dChar (n / 1000), dChar (n / 100 % 10), dChar (n / 10 % 10), dChar (n % 10)]

/-- Six-digit zero-padded decimal rendering (`%06d` for values `≤ 999999`). -/
def pad6 (n : Nat) : List Char :=
  [dChar (n / 100000), dChar (n / 10000 % 10), dChar (n / 1000 % 10),
   dChar (n / 100 % 10), dChar (n / 10 % 10), dChar (n % 10)]

/-- `datetime.isoformat()`: date, `T`, time, and the six-digit fraction
exactly when the microsecond field is non-zero. -/
def isoformat (t : Datetime) : List Char :=
  pad4 t.year ++ dashChar :: (pad2 t.month ++ dashChar :: (pad2 t.day ++
    tSepChar :: (pad2 t.hour ++ colonChar :: (pad2 t.minute ++
      colonChar :: (pad2 t.second ++
        (if t.microsecond = 0 then [] else dotChar :: pad6 t.microsecond))))))

/-- The metadata of a log record that the visible formatter code
consumes: the level name and the originating module identifier. -/
structure LogRecord where
  levelname : String
  module : String
deriving DecidableEq, Repr

/-- JSON string-escape for the characters occurring here: the double
quote and the backslash each get a backslash prefix; all other characters
pass through. -/
def escQB : List Char → List Char
  | [] => []
  | c :: rest =>
    if c = quoteChar ∨ c = backslashChar then
      backslashChar :: c :: escQB rest
    else c :: escQB rest

/-- A JSON string literal: quote, escaped body, quote. -/
def renderStrL (s : List Char) : List Char :=
  quoteChar :: (escQB s ++ [quoteChar])

/-- A JSON `"key":"value"` pair. -/
def renderPairL (p : List Char × List Char) : List Char :=
  renderStrL p.1 ++ colonChar :: renderStrL p.2

/-- Comma-separated JSON pairs. -/
def renderPairsL : List (List Char × List Char) → List Char
  | [] => []
  | [p] => renderPairL p
  | p :: ps => renderPairL p ++ commaChar :: renderPairsL ps

/-- A JSON object over string keys and string values. -/
def renderObjL (ps : List (List Char × List Char)) : List Char :=
  lbraceChar :: (renderPairsL ps ++ [rbraceChar])

/-- Modelled from the spec: `trading_enginelogger.py` truncates inside
`StructuredFormatter.format` — the source shows the `timestamp` entry
(`datetime.utcnow().isoformat() + 'Z'`) and the `level` entry
(`record.levelname`) and stops at the `module` key, so the module value
and the final serialization are missing.  Per the spec contract the
method returns the single-line JSON serialization of a flat mapping whose
required fields are the UTC timestamp with its `Z` marker, the record's
level name, and the originating module identifier. -/
def StructuredFormatter.format (now : Datetime) (r : LogRecord) : String :=
  ⟨renderObjL
    [("timestamp".data, isoformat now ++ [zChar]),
     ("level".data, r.levelname.data),
     ("module".data, r.module.data)]⟩

/-- Scan the body of a JSON string literal up to its closing quote,
undoing the backslash escapes. -/
def scanStr : List Char → Option (List Char × List Char)
  | [] => none
  | [c] => if c = quoteChar then some ([], []) else none
  | c :: d :: rest =>
    if c = quoteChar then some ([], d :: rest)
    else if c = backslashChar then
      match scanStr rest with
      | some p => some (d :: p.1, p.2)
      | none => none
    else
      match scanStr (d :: rest) with
      | some p => some (c :: p.1, p.2)
      | none => none

/-- Parse a JSON string literal. -/
def parseStrL : List Char → Option (List Char × List Char)
  | [] => none
  | c :: rest => if c = quoteChar then scanStr rest else none

/-- Parse a `"key":"value"` pair. -/
def parsePair (l : List Char) : Option ((List Char × List Char) × List Char) :=
  match parseStrL l with
  | none => none
  | some (k, rest) =>
    match rest with
    | [] => none
    | c :: rest2 =>
      if c = colonChar then
        match parseStrL rest2 with
        | none => none
        | some (v, rest3) => some ((k, v), rest3)
      else none

/-- Parse one or more comma-separated pairs up to the closing brace; the
fuel bounds the number of pairs. -/
def parsePairs :
    Nat → List Char → Option (List (List Char × List Char) × List Char)
  | 0, _ => none
  | fuel + 1, l =>
    match parsePair l with
    | none => none
    | some (p, rest) =>
      match rest with
      | [] => none
      | c :: rest2 =>
        if c = commaChar then
          match parsePairs fuel rest2 with
          | some q => some (p :: q.1, q.2)
          | none => none
        else if c = rbraceChar then some ([p], rest2)
        else none

/-- Parse a whole string as a JSON object with string keys and values. -/
def parseObj (s : String) : Option (List (List Char × List Char)) :=
  match s.data with
  | [] => none
  | c :: rest =>
    if c = lbraceChar then
      match parsePairs s.length rest with
      | some q => if q.2 = [] then some q.1 else none
      | none => none
    else none

/-- Decide whether a character is a decimal digit. -/
def isDigitB (c : Char) : Bool :=
  decide (48 ≤ c.toNat) && decide (c.toNat ≤ 57)

/-- The numeric value of a digit character. -/
def dv (c : Char) : Nat := c.toNat - 48

/-- Read a two-digit decimal number. -/
def read2 : List Char → Option (Nat × List Char)
  | a :: b :: rest =>
    if isDigitB a && isDigitB b then some (10 * dv a + dv b, rest) else none
  | _ => none

/-- Read exactly four decimal digits. -/
def read4Digits : List Char → Option (List Char)
  | a :: b :: c :: d :: rest =>
    if isDigitB a && isDigitB b && isDigitB c && isDigitB d then some rest
    else none
  | _ => none

/-- Read exactly six decimal digits. -/
def read6Digits : List Char → Option (List Char)
  | a :: b :: c :: d :: e :: f :: rest =>
    if isDigitB a && isDigitB b && isDigitB c && isDigitB d &&
       isDigitB e && isDigitB f then some rest
    else none
  | _ => none

/-- Consume one expected character. -/
def expectChar (c : Char) : List Char → Option (List Char)
  | [] => none
  | d :: rest => if d = c then some rest else none

/-- Read a two-digit number and check it lies in `[lo, hi]`. -/
def read2In (lo hi : Nat) (l : List Char) : Option (List Char) :=
  match read2 l with
  | none => none
  | some q => if lo ≤ q.1 ∧ q.1 ≤ hi then some q.2 else none

/-- Consume an optional six-digit fractional part. -/
def readFrac : List Char → Option (List Char)
  | [] => some []
  | c :: rest => if c = dotChar then read6Digits rest else some (c :: rest)

/-- Consume an optional `Z` zone marker. -/
def readZone : List Char → Option (List Char)
  | [] => some []
  | c :: rest => if c = zChar then some rest else some (c :: rest)

/-- ISO-8601 instant check: `YYYY-MM-DDTHH:MM:SS`, optional `.ffffff`,
optional `Z`, with each component in range, and nothing after. -/
def isIso8601Instant (l : List Char) : Bool :=
  match ((((((((((((read4Digits l).bind (expectChar dashChar)).bind
      (read2In 1 12)).bind (expectChar dashChar)).bind
      (read2In 1 31)).bind (expectChar tSepChar)).bind
      (read2In 0 23)).bind (expectChar colonChar)).bind
      (read2In 0 59)).bind (expectChar colonChar)).bind
      (read2In 0 59)).bind readFrac).bind readZone with
  | some [] => true
  | _ => false

/-- A concrete instant for evaluating the formatter. -/
def sampleInstant : Datetime :=
  { year := 2024, month := 1, day := 2, hour := 3, minute := 4, second := 5,
    microsecond := 0 }

/-- A concrete log record for evaluating the formatter. -/
def sampleRecord : LogRecord :=
  { levelname := "INFO", module := "trading_engine.config" }

/-! ### Basic facts about the loader -/

/-- `FirebaseConfig.from_env` computes the credential block of an
environment outright: the `try` body always succeeds. -/
theorem fromEnv_eq (env : Env) :
    FirebaseConfig.fromEnv env = some
      { project_id := getenv env "FIREBASE_PROJECT_ID" ""
        private_key_id := getenv env "FIREBASE_PRIVATE_KEY_ID" ""
        private_key := replaceBsNStr (getenv env "FIREBASE_PRIVATE_KEY" "")
        client_email := getenv env "FIREBASE_CLIENT_EMAIL" "" } := rfl

/-- The credential block of a built configuration is never `None`, so the
truthiness test `not self.firebase` in `_validate` is always false. -/
theorem build_firebase_isNone (env : Env) (base : String) (t : TradingConfig) :
    (Config.build env base t).firebase.isNone = false := rfl

/-- `_validate` on a built configuration, in closed form: the credential
branch never fires; the warning list and the raised error are decided by
the exchange credentials and the initial capital alone. -/
theorem validate_build (env : Env) (base : String) (t : TradingConfig) :
    (Config.build env base t).validate =
      ((if getenv env "EXCHANGE_API_KEY" "" = "" ∨
           getenv env "EXCHANGE_API_SECRET" "" = ""
        then [paperTradingWarning] else []),
       (if t.initial_capital ≤ 0 then some capitalMsg else none)) := by
  simp only [Config.validate, Config.build, ExchangeConfig.fromEnv,
    FirebaseConfig.fromEnv, fromEnvBody, Option.isNone_some,
    Bool.false_eq_true, if_false]
  split <;> split <;> rfl

/-- `Config()` with a non-positive initial capital, in closed form: the
warning may print, the `ValueError` is raised before any `mkdir` runs. -/
theorem loadWith_capital_le {t : TradingConfig} (h : t.initial_capital ≤ 0)
    (env : Env) (base : String) (fs : FS) :
    Config.loadWith env base t fs =
      ((if getenv env "EXCHANGE_API_KEY" "" = "" ∨
           getenv env "EXCHANGE_API_SECRET" "" = ""
        then [paperTradingWarning] else []),
       fs, .error (.validation capitalMsg)) := by
  simp only [Config.loadWith, validate_build, if_pos h]

/-- `Config()` with a positive initial capital, in closed form:
validation passes and the outcome is decided by `_create_directories`. -/
theorem loadWith_capital_pos {t : TradingConfig}
    (h : ¬t.initial_capital ≤ 0) (env : Env) (base : String) (fs : FS) :
    Config.loadWith env base t fs =
      ((if getenv env "EXCHANGE_API_KEY" "" = "" ∨
           getenv env "EXCHANGE_API_SECRET" "" = ""
        then [paperTradingWarning] else []),
       ((Config.build env base t).createDirectories fs).1,
       (match ((Config.build env base t).createDirectories fs).2 with
        | some e => .error (.fs e)
        | none => .ok (Config.build env base t))) := by
  simp only [Config.loadWith, validate_build, if_neg h]
  split <;> rfl

/-! ### Claim theorems for the configuration loader -/

/-- C1: with every credential variable unset (hence every credential field
empty), `Config()` does not raise at all: `from_env` returns an
all-empty-fields block, the (truthy) block passes `not self.firebase`, and
construction completes.  This evaluates the loader at the claim's failing
input. -/
theorem emptyCredentials_load_succeeds :
    (Config.load emptyEnv "app" freshFS).2.2 =
      .ok (Config.build emptyEnv "app" {}) ∧
    FirebaseConfig.fromEnv emptyEnv = some
      { project_id := "", private_key_id := "", private_key := "",
        client_email := "" } :=
  ⟨rfl, rfl⟩

/-- C3: for every trading-limits record with non-positive initial capital,
constructing the configuration raises `ValueError('Initial capital must be
positive')`, whatever the environment, base path and filesystem. -/
theorem nonpositiveCapital_raises (env : Env) (base : String)
    (t : TradingConfig) (fs : FS) (h : t.initial_capital ≤ 0) :
    (Config.loadWith env base t fs).2.2 = .error (.validation capitalMsg) := by
  rw [loadWith_capital_le h]

/-- Witness for C3 at initial capital `-5`. -/
theorem nonpositiveCapital_raises_witness :
    ({ initial_capital := -5 } : TradingConfig).initial_capital ≤ 0 ∧
    (Config.loadWith emptyEnv "app" { initial_capital := -5 } freshFS).2.2 =
      .error (.validation capitalMsg) :=
  ⟨by norm_num,
   nonpositiveCapital_raises emptyEnv "app" { initial_capital := -5 } freshFS
     (by norm_num)⟩

/-- C5: the credential loader never propagates an exception: for every
possible outcome of the `try` body, the wrapped method returns normally,
and a raising body is converted to an absent (`None`) block; moreover
`from_env` is exactly this wrapping of its body. -/
theorem credentialLoad_never_raises :
    (∀ r : Except PyErr FirebaseConfig,
       ∃ v, catchToNone r = .ok v ∧ ∀ e, r = .error e → v = none) ∧
    (∀ env, FirebaseConfig.fromEnvCaught env = catchToNone (fromEnvBody env)) := by
  refine ⟨fun r => ?_, fun env => rfl⟩
  cases r with
  | ok c => exact ⟨some c, rfl, fun e he => Except.noConfusion he⟩
  | error e0 => exact ⟨none, rfl, fun e he => rfl⟩

/-- Witness for C5: a raising body is converted to `ok none`. -/
theorem credentialLoad_never_raises_witness :
    catchToNone (.error "malformed key") = .ok none := by
  obtain ⟨v, hv, hnone⟩ :=
    credentialLoad_never_raises.1 (Except.error "malformed key")
  rw [hv, hnone "malformed key" rfl]

/-- C8: for every environment, `from_env` returns a non-`None` credential
block, and the fatal `Firebase configuration is required` branch of
`_validate` never fires. -/
theorem firebaseBlock_always_present :
    (∀ env, (FirebaseConfig.fromEnv env).isSome = true) ∧
    (∀ env base t,
      ((Config.build env base t).validate).2 ≠ some firebaseRequiredMsg) := by
  constructor
  · intro env
    rw [fromEnv_eq]
    rfl
  · intro env base t
    rw [validate_build]
    by_cases hc : t.initial_capital ≤ 0
    · simp only [if_pos hc]
      decide
    · simp only [if_neg hc]
      simp

/-- C9: the redacted view is independent of the secret inputs: any two
environments that agree outside the secret variables (indeed, any two
environments at all) produce equal `to_dict` results. -/
theorem redactedView_secret_independent (env1 env2 : Env) (base : String)
    (t : TradingConfig)
    (hagree : ∀ k, k ∉ secretVarNames → env1 k = env2 k) :
    Config.toDict (Config.build env1 base t) =
      Config.toDict (Config.build env2 base t) := rfl

/-- Witness for C9: two environments differing only in a secret variable
yield the same redacted view. -/
theorem redactedView_secret_independent_witness :
    (∀ k, k ∉ secretVarNames → envA k = envB k) ∧
    Config.toDict (Config.build envA "app" {}) =
      Config.toDict (Config.build envB "app" {}) := by
  have hagree : ∀ k, k ∉ secretVarNames → envA k = envB k := by
    intro k hk
    by_cases h : k = "EXCHANGE_API_KEY"
    · subst h
      exact absurd (by decide) hk
    · simp [envA, envB, h]
  exact ⟨hagree, redactedView_secret_independent envA envB "app" {} hagree⟩

/-- C10: whenever `Config()` raises a validation error, the filesystem is
left untouched: `_validate` runs before `_create_directories`. -/
theorem validation_precedes_directory_creation (env : Env) (base : String)
    (t : TradingConfig) (fs : FS) (m : String)
    (h : (Config.loadWith env base t fs).2.2 = .error (.validation m)) :
    (Config.loadWith env base t fs).2.1 = fs := by
  by_cases hc : t.initial_capital ≤ 0
  · rw [loadWith_capital_le hc]
  · exfalso
    rw [loadWith_capital_pos hc] at h
    rcases hd : ((Config.build env base t).createDirectories fs).2 with _ | e <;>
      rw [hd] at h <;> simp at h

/-- Witness for C10 at a failing validation (capital `-5`): the
filesystem is returned unchanged. -/
theorem validation_precedes_directory_creation_witness :
    (Config.loadWith emptyEnv "app" { initial_capital := -5 } freshFS).2.2 =
      .error (.validation capitalMsg) ∧
    (Config.loadWith emptyEnv "app" { initial_capital := -5 } freshFS).2.1 =
      freshFS :=
  ⟨rfl,
   validation_precedes_directory_creation emptyEnv "app"
     { initial_capital := -5 } freshFS capitalMsg rfl⟩

/-- `mkdir(exist_ok=True)` succeeds on a path that exists or may be
created, yields a state containing the path and everything that existed,
and leaves the creation oracle unchanged. -/
theorem mkdirExistOk_ok {fs : FS} {p : String}
    (h : p ∈ fs.dirs ∨ fs.canCreate p = true) :
    ∃ fs1, mkdirExistOk fs p = .ok fs1 ∧ p ∈ fs1.dirs ∧
      fs.dirs ⊆ fs1.dirs ∧ fs1.canCreate = fs.canCreate := by
  unfold mkdirExistOk
  by_cases h1 : p ∈ fs.dirs
  · exact ⟨fs, by rw [if_pos h1], h1, fun q hq => hq, rfl⟩
  · have h2 : fs.canCreate p = true := h.resolve_left h1
    refine ⟨{ fs with dirs := p :: fs.dirs }, ?_, List.mem_cons_self _ _,
      fun q hq => List.mem_cons_of_mem _ hq, rfl⟩
    rw [if_neg h1, if_pos h2]

/-- Whenever `mkdir(exist_ok=True)` succeeds, the path is in the resulting
state and nothing that existed is lost. -/
theorem mkdirExistOk_mem {fs : FS} {p : String} {fs1 : FS}
    (h : mkdirExistOk fs p = .ok fs1) :
    p ∈ fs1.dirs ∧ fs.dirs ⊆ fs1.dirs := by
  unfold mkdirExistOk at h
  split_ifs at h with h1 h2
  · injection h with h
    subst h
    exact ⟨h1, fun q hq => hq⟩
  · injection h with h
    subst h
    exact ⟨List.mem_cons_self _ _, fun q hq => List.mem_cons_of_mem _ hq⟩

/-- On a ready filesystem, `_create_directories` raises nothing and its
resulting state contains the three directories. -/
theorem createDirectories_ready {c : Config} {fs : FS} (h : fs.ready c) :
    (c.createDirectories fs).2 = none ∧
    c.data_dir ∈ (c.createDirectories fs).1.dirs ∧
    c.models_dir ∈ (c.createDirectories fs).1.dirs ∧
    c.logs_dir ∈ (c.createDirectories fs).1.dirs := by
  obtain ⟨h1, h2, h3⟩ := h
  obtain ⟨fs1, e1, m1, sub1, cc1⟩ := mkdirExistOk_ok h1
  have h2a : c.models_dir ∈ fs1.dirs ∨ fs1.canCreate c.models_dir = true := by
    rcases h2 with h2 | h2
    · exact Or.inl (sub1 h2)
    · exact Or.inr (cc1 ▸ h2)
  obtain ⟨fs2, e2, m2, sub2, cc2⟩ := mkdirExistOk_ok h2a
  have h3a : c.logs_dir ∈ fs2.dirs ∨ fs2.canCreate c.logs_dir = true := by
    rcases h3 with h3 | h3
    · exact Or.inl (sub2 (sub1 h3))
    · exact Or.inr (cc2 ▸ cc1 ▸ h3)
  obtain ⟨fs3, e3, m3, sub3, cc3⟩ := mkdirExistOk_ok h3a
  unfold Config.createDirectories
  simp only [e1, e2, e3]
  exact ⟨by trivial, sub3 (sub2 m1), sub3 m2, m3⟩

/-- Whenever `_create_directories` raises nothing, all three directories
exist in the resulting state. -/
theorem createDirectories_none_mem {c : Config} {fs : FS}
    (h : (c.createDirectories fs).2 = none) :
    c.data_dir ∈ (c.createDirectories fs).1.dirs ∧
    c.models_dir ∈ (c.createDirectories fs).1.dirs ∧
    c.logs_dir ∈ (c.createDirectories fs).1.dirs := by
  unfold Config.createDirectories at h ⊢
  rcases e1 : mkdirExistOk fs c.data_dir with e | fs1 <;> simp only [e1] at h ⊢
  · simp at h
  · rcases e2 : mkdirExistOk fs1 c.models_dir with e | fs2 <;>
      simp only [e2] at h ⊢
    · simp at h
    · rcases e3 : mkdirExistOk fs2 c.logs_dir with e | fs3 <;>
        simp only [e3] at h ⊢
      · simp at h
      · obtain ⟨p1, s1⟩ := mkdirExistOk_mem e1
        obtain ⟨p2, s2⟩ := mkdirExistOk_mem e2
        obtain ⟨p3, s3⟩ := mkdirExistOk_mem e3
        exact ⟨s3 (s2 p1), s3 p2, p3⟩

/-- A successful `Config()` returns exactly the built field assignment:
the object is not modified after validation. -/
theorem load_ok_eq_build {env : Env} {base : String} {fs : FS} {c : Config}
    (h : (Config.load env base fs).2.2 = .ok c) :
    c = Config.build env base {} := by
  have hc : ¬({} : TradingConfig).initial_capital ≤ 0 := by decide
  unfold Config.load at h
  rw [loadWith_capital_pos hc] at h
  rcases hd : ((Config.build env base {}).createDirectories fs).2 with _ | e <;>
    rw [hd] at h
  · exact (Except.ok.inj h).symm
  · simp at h

/-- The strings occurring in the redacted view of any built
configuration form the fixed public list, whatever the environment and
the trading record. -/
theorem toDict_build_strings (env : Env) (base : String) (t : TradingConfig) :
    Val.strings (Config.toDict (Config.build env base t)) = redactedStrings := by
  simp [Config.toDict, Config.build, Val.strings, TradingConfig.toVal,
    HypothesisConfig.toVal, ModelConfig.toVal, ExchangeConfig.fromEnv,
    redactedStrings]

/-- C2: whenever `Config()` succeeds, the redacted view `to_dict` has
exactly the keys `exchange`, `trading`, `hypothesis`, `model`; the strings
occurring anywhere in it are the fixed public list, which contains no
secret field name; and no secret value read from the environment occurs in
it unless that value happens to equal one of the fixed public strings. -/
theorem redactedView_no_secrets (env : Env) (base : String) (fs : FS)
    (c : Config) (h : (Config.load env base fs).2.2 = .ok c) :
    Val.topKeys c.toDict = ["exchange", "trading", "hypothesis", "model"] ∧
    Val.strings c.toDict = redactedStrings ∧
    (∀ nm ∈ secretFieldNames, nm ∉ redactedStrings) ∧
    (∀ v ∈ secretValues env, v ∉ redactedStrings → v ∉ Val.strings c.toDict) := by
  obtain rfl := load_ok_eq_build h
  refine ⟨rfl, toDict_build_strings env base {}, by decide, ?_⟩
  intro v _ hv
  rw [toDict_build_strings env base {}]
  exact hv

/-- Witness for C2 at the empty environment on a fresh filesystem. -/
theorem redactedView_no_secrets_witness :
    (Config.load emptyEnv "app" freshFS).2.2 =
      .ok (Config.build emptyEnv "app" {}) ∧
    Val.topKeys (Config.build emptyEnv "app" {}).toDict =
      ["exchange", "trading", "hypothesis", "model"] ∧
    Val.strings (Config.build emptyEnv "app" {}).toDict = redactedStrings ∧
    (∀ nm ∈ secretFieldNames, nm ∉ redactedStrings) :=
  ⟨rfl,
   (redactedView_no_secrets emptyEnv "app" freshFS _ rfl).1,
   (redactedView_no_secrets emptyEnv "app" freshFS _ rfl).2.1,
   (redactedView_no_secrets emptyEnv "app" freshFS _ rfl).2.2.1⟩

/-- C7: with a usable credential block (always the case), positive initial
capital, and a workable filesystem, but an empty exchange API key or
secret, `Config()` succeeds and prints exactly the paper-trading
warning. -/
theorem missingExchangeCreds_warns (env : Env) (base : String)
    (t : TradingConfig) (fs : FS)
    (hcap : 0 < t.initial_capital)
    (hkey : getenv env "EXCHANGE_API_KEY" "" = "" ∨
            getenv env "EXCHANGE_API_SECRET" "" = "")
    (hfs : fs.ready (Config.build env base t)) :
    (∃ c, (Config.loadWith env base t fs).2.2 = .ok c) ∧
    (Config.loadWith env base t fs).1 = [paperTradingWarning] := by
  have hc : ¬t.initial_capital ≤ 0 := not_le.mpr hcap
  obtain ⟨hnone, -⟩ := createDirectories_ready hfs
  rw [loadWith_capital_pos hc]
  constructor
  · refine ⟨Config.build env base t, ?_⟩
    simp only [hnone]
  · simp only [if_pos hkey]

/-- Witness for C7: the empty environment (no exchange credentials) on a
fresh filesystem. -/
theorem missingExchangeCreds_warns_witness :
    (0 : ℚ) < ({} : TradingConfig).initial_capital ∧
    getenv emptyEnv "EXCHANGE_API_KEY" "" = "" ∧
    freshFS.ready (Config.build emptyEnv "app" {}) ∧
    ((∃ c, (Config.loadWith emptyEnv "app" {} freshFS).2.2 = .ok c) ∧
     (Config.loadWith emptyEnv "app" {} freshFS).1 = [paperTradingWarning]) :=
  ⟨by decide, rfl, ⟨Or.inr rfl, Or.inr rfl, Or.inr rfl⟩,
   missingExchangeCreds_warns emptyEnv "app" {} freshFS (by decide)
     (Or.inl rfl) ⟨Or.inr rfl, Or.inr rfl, Or.inr rfl⟩⟩

/-- C6: (i) after a successful `Config()`, a second `Config()` against the
resulting filesystem and the same base path never raises — the directories
already exist and `exist_ok` makes `mkdir` a no-op; (ii) any other
filesystem error (a missing directory that cannot be created, e.g. for
permissions) is not caught: it surfaces from construction. -/
theorem directoryCreation_idempotent_and_propagates :
    (∀ env base fs c env2,
      (Config.load env base fs).2.2 = .ok c →
      ∃ c2, (Config.loadWith env2 base {}
        ((Config.load env base fs).2.1)).2.2 = .ok c2) ∧
    (∀ env base fs,
      (Config.build env base ({} : TradingConfig)).data_dir ∉ fs.dirs →
      fs.canCreate (Config.build env base ({} : TradingConfig)).data_dir
        = false →
      (Config.load env base fs).2.2 =
        .error (.fs (.cannotCreate
          (Config.build env base ({} : TradingConfig)).data_dir))) := by
  have hc : ¬({} : TradingConfig).initial_capital ≤ 0 := by decide
  constructor
  · intro env base fs c env2 h
    unfold Config.load at h ⊢
    rw [loadWith_capital_pos hc env base fs] at h
    have hfs1 : (Config.loadWith env base {} fs).2.1 =
        ((Config.build env base {}).createDirectories fs).1 := by
      rw [loadWith_capital_pos hc env base fs]
    rcases hd : ((Config.build env base {}).createDirectories fs).2 with _ | e
    · have hmem := createDirectories_none_mem hd
      have hready :
          (((Config.build env base {}).createDirectories fs).1).ready
            (Config.build env2 base {}) :=
        ⟨Or.inl hmem.1, Or.inl hmem.2.1, Or.inl hmem.2.2⟩
      obtain ⟨hnone2, -⟩ := createDirectories_ready hready
      refine ⟨Config.build env2 base {}, ?_⟩
      rw [hfs1, loadWith_capital_pos hc env2 base]
      simp only [hnone2]
    · rw [hd] at h
      simp at h
  · intro env base fs h1 h2
    unfold Config.load
    rw [loadWith_capital_pos hc env base fs]
    have hd : (Config.build env base ({} : TradingConfig)).createDirectories fs
        = (fs, some (.cannotCreate
            (Config.build env base ({} : TradingConfig)).data_dir)) := by
      have h2a : ¬fs.canCreate
          (Config.build env base ({} : TradingConfig)).data_dir = true := by
        rw [h2]
        exact Bool.false_ne_true
      unfold Config.createDirectories mkdirExistOk
      rw [if_neg h1, if_neg h2a]
    rw [hd]

/-- Witness for C6: part (i) at the empty environment on a fresh
filesystem; part (ii) on a locked filesystem. -/
theorem directoryCreation_idempotent_and_propagates_witness :
    ((Config.load emptyEnv "app" freshFS).2.2 =
       .ok (Config.build emptyEnv "app" {}) ∧
     ∃ c2, (Config.loadWith emptyEnv "app" {}
       ((Config.load emptyEnv "app" freshFS).2.1)).2.2 = .ok c2) ∧
    ((Config.build emptyEnv "app" ({} : TradingConfig)).data_dir
       ∉ lockedFS.dirs ∧
     lockedFS.canCreate
       (Config.build emptyEnv "app" ({} : TradingConfig)).data_dir = false ∧
     (Config.load emptyEnv "app" lockedFS).2.2 =
       .error (.fs (.cannotCreate
         (Config.build emptyEnv "app" ({} : TradingConfig)).data_dir))) :=
  ⟨⟨rfl,
    directoryCreation_idempotent_and_propagates.1 emptyEnv "app" freshFS
      (Config.build emptyEnv "app" {}) emptyEnv rfl⟩,
   by simp [lockedFS], rfl,
   directoryCreation_idempotent_and_propagates.2 emptyEnv "app" lockedFS
     (by simp [lockedFS]) rfl⟩

/-! ### Roundtrip of the JSON rendering -/

/-- Scanning an escaped body followed by a closing quote recovers the
body and the remainder. -/
theorem scanStr_escQB (s t : List Char) :
    scanStr (escQB s ++ (quoteChar :: t)) = some (s, t) := by
  induction s generalizing t with
  | nil => cases t <;> simp [escQB, scanStr]
  | cons c s ih =>
    by_cases hc : c = quoteChar ∨ c = backslashChar
    · have hbq : ¬backslashChar = quoteChar := by decide
      simp [escQB, if_pos hc, List.cons_append, scanStr, hbq, ih]
    · have hcq : ¬c = quoteChar := fun hq => hc (Or.inl hq)
      have hcb : ¬c = backslashChar := fun hb => hc (Or.inr hb)
      simp only [escQB, if_neg hc, List.cons_append]
      rcases hE : escQB s ++ (quoteChar :: t) with _ | ⟨d, rest⟩
      · exact absurd hE (by simp)
      · simp only [scanStr, if_neg hcq, if_neg hcb]
        rw [← hE, ih]

/-- Parsing a rendered string literal recovers the string and the
remainder. -/
theorem parseStrL_render (s t : List Char) :
    parseStrL (renderStrL s ++ t) = some (s, t) := by
  simp [renderStrL, parseStrL, List.cons_append, List.append_assoc,
    scanStr_escQB]

/-- Parsing a rendered pair recovers the pair and the remainder. -/
theorem parsePair_render (p : List Char × List Char) (t : List Char) :
    parsePair (renderPairL p ++ t) = some (p, t) := by
  obtain ⟨k, v⟩ := p
  simp [renderPairL, parsePair, List.append_assoc, List.cons_append,
    parseStrL_render]

/-- A rendered pair list is at least as long as the pair list itself. -/
theorem length_le_renderPairsL (ps : List (List Char × List Char)) :
    ps.length ≤ (renderPairsL ps).length := by
  induction ps with
  | nil => simp [renderPairsL]
  | cons p ps ih =>
    cases ps with
    | nil => simp [renderPairsL, renderPairL, renderStrL]
    | cons p2 ps2 =>
      have h1 : 1 ≤ (renderPairL p).length := by
        simp [renderPairL, renderStrL]
      simp only [renderPairsL, List.length_append, List.length_cons] at ih ⊢
      omega

/-- Parsing rendered comma-separated pairs up to a closing brace recovers
the pairs and the remainder, given enough fuel. -/
theorem parsePairs_render (ps : List (List Char × List Char)) (fuel : Nat)
    (t : List Char) (hne : ps ≠ []) (hf : ps.length ≤ fuel) :
    parsePairs fuel (renderPairsL ps ++ (rbraceChar :: t)) = some (ps, t) := by
  induction ps generalizing fuel t with
  | nil => exact absurd rfl hne
  | cons p ps ih =>
    obtain ⟨fuel, rfl⟩ : ∃ f, fuel = f + 1 :=
      ⟨fuel - 1, by simp at hf; omega⟩
    cases ps with
    | nil =>
      have h1 : ¬rbraceChar = commaChar := by decide
      simp [renderPairsL, parsePairs, parsePair_render, h1]
    | cons p2 ps2 =>
      simp only [renderPairsL, List.cons_append, List.append_assoc]
      rw [parsePairs, parsePair_render]
      simp only [if_pos rfl]
      rw [ih fuel t (by simp) (by simp at hf ⊢; omega)]
      simp

/-- Parsing a rendered non-empty object recovers exactly its pairs. -/
theorem parseObj_render {ps : List (List Char × List Char)} (h : ps ≠ []) :
    parseObj ⟨renderObjL ps⟩ = some ps := by
  have h1 := length_le_renderPairsL ps
  have hlen : ps.length ≤
      (String.mk (lbraceChar :: (renderPairsL ps ++ [rbraceChar]))).length := by
    simp only [String.length, List.length_cons, List.length_append]
    omega
  unfold parseObj
  simp only [renderObjL, if_pos rfl]
  rw [parsePairs_render ps _ [] h hlen]
  simp

/-! ### Validity of the rendered timestamp -/

/-- A digit character is recognised as a digit. -/
theorem isDigitB_dChar {k : Nat} (h : k ≤ 9) : isDigitB (dChar k) = true := by
  interval_cases k <;> decide

/-- A digit character decodes to its value. -/
theorem dv_dChar {k : Nat} (h : k ≤ 9) : dv (dChar k) = k := by
  interval_cases k <;> decide

/-- Reading back a two-digit rendering yields the number. -/
theorem read2_pad2 {n : Nat} (h : n ≤ 99) (r : List Char) :
    read2 (pad2 n ++ r) = some (n, r) := by
  have h1 : n / 10 ≤ 9 := by omega
  have h2 : n % 10 ≤ 9 := by omega
  simp [pad2, read2, isDigitB_dChar h1, isDigitB_dChar h2, dv_dChar h1,
    dv_dChar h2]
  omega

/-- Reading back a two-digit rendering in range succeeds. -/
theorem read2In_pad2 {n lo hi : Nat} (h99 : n ≤ 99) (hlo : lo ≤ n)
    (hhi : n ≤ hi) (r : List Char) :
    read2In lo hi (pad2 n ++ r) = some r := by
  simp [read2In, read2_pad2 h99, hlo, hhi]

/-- A four-digit rendering reads back as four digits. -/
theorem read4Digits_pad4 {n : Nat} (h : n ≤ 9999) (r : List Char) :
    read4Digits (pad4 n ++ r) = some r := by
  have h1 : n / 1000 ≤ 9 := by omega
  have h2 : n / 100 % 10 ≤ 9 := by omega
  have h3 : n / 10 % 10 ≤ 9 := by omega
  have h4 : n % 10 ≤ 9 := by omega
  simp [pad4, read4Digits, isDigitB_dChar h1, isDigitB_dChar h2,
    isDigitB_dChar h3, isDigitB_dChar h4]

/-- A six-digit rendering reads back as six digits. -/
theorem read6Digits_pad6 {n : Nat} (h : n ≤ 999999) (r : List Char) :
    read6Digits (pad6 n ++ r) = some r := by
  have h1 : n / 100000 ≤ 9 := by omega
  have h2 : n / 10000 % 10 ≤ 9 := by omega
  have h3 : n / 1000 % 10 ≤ 9 := by omega
  have h4 : n / 100 % 10 ≤ 9 := by omega
  have h5 : n / 10 % 10 ≤ 9 := by omega
  have h6 : n % 10 ≤ 9 := by omega
  simp [pad6, read6Digits, isDigitB_dChar h1, isDigitB_dChar h2,
    isDigitB_dChar h3, isDigitB_dChar h4, isDigitB_dChar h5,
    isDigitB_dChar h6]

/-- The expected character is consumed. -/
theorem expectChar_cons (c : Char) (r : List Char) :
    expectChar c (c :: r) = some r := by
  simp [expectChar]

/-- The rendered timestamp of any in-range instant, with its `Z` marker,
passes the ISO-8601 instant check. -/
theorem isoformat_valid {t : Datetime} (h : t.wf) :
    isIso8601Instant (isoformat t ++ [zChar]) = true := by
  obtain ⟨hy, hmo1, hmo2, hd1, hd2, hh, hmi, hs, hu⟩ := h
  unfold isIso8601Instant isoformat
  simp only [List.append_assoc, List.cons_append]
  rw [read4Digits_pad4 hy, Option.some_bind, expectChar_cons,
    Option.some_bind, read2In_pad2 (by omega) hmo1 hmo2, Option.some_bind,
    expectChar_cons, Option.some_bind,
    read2In_pad2 (by omega) hd1 hd2, Option.some_bind, expectChar_cons,
    Option.some_bind, read2In_pad2 (by omega) (Nat.zero_le _) hh,
    Option.some_bind, expectChar_cons, Option.some_bind,
    read2In_pad2 (by omega) (Nat.zero_le _) hmi, Option.some_bind,
    expectChar_cons, Option.some_bind,
    read2In_pad2 (by omega) (Nat.zero_le _) hs, Option.some_bind]
  by_cases hu0 : t.microsecond = 0
  · have hzd : ¬zChar = dotChar := by decide
    simp [hu0, readFrac, readZone, hzd]
  · simp [hu0, readFrac, read6Digits_pad6 hu, readZone]

/-- C4 (modelled from the spec where the source truncates): for every
in-range instant and every log record, the formatter's output parses back
as a JSON mapping whose entries are exactly the `timestamp`, `level` and
`module` keys, where the timestamp value is the ISO rendering of the
instant ending in the `Z` UTC marker and passes the ISO-8601 instant
check, the level value is the record's level name, and the module value is
the record's module identifier. -/
theorem format_json_wellformed (now : Datetime) (r : LogRecord)
    (h : now.wf) :
    parseObj (StructuredFormatter.format now r) =
      some [("timestamp".data, isoformat now ++ [zChar]),
            ("level".data, r.levelname.data),
            ("module".data, r.module.data)] ∧
    (isoformat now ++ [zChar]).getLast? = some zChar ∧
    isIso8601Instant (isoformat now ++ [zChar]) = true := by
  refine ⟨?_, ?_, isoformat_valid h⟩
  · exact parseObj_render (by simp)
  · exact List.getLast?_concat _

/-- Witness for C4 at a concrete instant and record. -/
theorem format_json_wellformed_witness :
    sampleInstant.wf ∧
    parseObj (StructuredFormatter.format sampleInstant sampleRecord) =
      some [("timestamp".data, isoformat sampleInstant ++ [zChar]),
            ("level".data, sampleRecord.levelname.data),
            ("module".data, sampleRecord.module.data)] ∧
    isIso8601Instant (isoformat sampleInstant ++ [zChar]) = true :=
  ⟨by decide,
   (format_json_wellformed sampleInstant sampleRecord (by decide)).1,
   (format_json_wellformed sampleInstant sampleRecord (by decide)).2.2⟩

end TradingEngine
